import Mathlib

/-!
Verification of the Newspod newsletter-podcast pipeline.

Shallow embedding of the core pipeline of the repository:
`newsletter_podcast/podcast_generator.py` (orchestrator),
`newsletter_podcast/services/email_service.py` (fetch + cache),
`newsletter_podcast/services/newsletter_filter.py` (relevance filter).

Python strings are modelled as `List Char`, floats coming from parsed
scores as `ℚ` (all score constants in the code are exact decimals),
exceptions as `Except`, and `None`-able values as `Option`.  External
collaborators (IMAP server, scoring oracle, JSON decoder, speech
synthesis, storage, Drive) are parameters of the embedding, exactly at
the call boundary the code uses them.
-/

namespace Newspod

/-- Python `str`, modelled as a list of characters. -/
abbrev Str := List Char

/-- `email_service.Newsletter` dataclass: subject, sender, date, body,
html_body, newsletter_source.  The `datetime` value is modelled as an
opaque integer timestamp. -/
structure Newsletter where
  subject : Str
  sender : Str
  date : Int
  body : Str
  html_body : Option Str := none
  newsletter_source : Option Str := none
deriving DecidableEq, Repr

/-- `newsletter_filter.FilterResult` dataclass. -/
structure FilterResult where
  is_relevant : Bool
  relevance_score : ℚ
  reason : Str
  topics : List Str
deriving DecidableEq, Repr

instance : DecidableEq (Except Str FilterResult) := fun a b =>
  match a, b with
  | Except.ok x, Except.ok y =>
      if h : x = y then isTrue (by rw [h]) else isFalse (by intro hc; cases hc; exact h rfl)
  | Except.error x, Except.error y =>
      if h : x = y then isTrue (by rw [h]) else isFalse (by intro hc; cases hc; exact h rfl)
  | Except.ok _, Except.error _ => isFalse (by intro hc; cases hc)
  | Except.error _, Except.ok _ => isFalse (by intro hc; cases hc)

instance : DecidableEq (Except Str (List Newsletter)) := fun a b =>
  match a, b with
  | Except.ok x, Except.ok y =>
      if h : x = y then isTrue (by rw [h]) else isFalse (by intro hc; cases hc; exact h rfl)
  | Except.error x, Except.error y =>
      if h : x = y then isTrue (by rw [h]) else isFalse (by intro hc; cases hc; exact h rfl)
  | Except.ok _, Except.error _ => isFalse (by intro hc; cases hc)
  | Except.error _, Except.ok _ => isFalse (by intro hc; cases hc)

/-! ## Relevance filter (`newsletter_filter.py`, lines 36-98)

`filter_newsletters_parallel` submits one scoring task per newsletter to a
thread pool and consumes the outcomes in completion order.  The embedding
takes the completion-ordered list of task outcomes as input: each task
either returned a `FilterResult` (`Except.ok`) or raised (`Except.error`
with the exception text). -/

/-- The fallback verdict built in the `except` branch of the completion
loop (lines 86-91): `is_relevant=True, relevance_score=0.5,
reason=f"Error during filtering: {e}", topics=[]`. -/
def errorFilterResult (e : Str) : FilterResult :=
  { is_relevant := true
    relevance_score := 1/2
    reason := "Error during filtering: ".toList ++ e
    topics := [] }

/-- The completion loop (lines 73-92): a successful verdict is kept iff
`is_relevant`; a raised task keeps its newsletter with the fallback
verdict. -/
def collectOutcomes : List (Newsletter × Except Str FilterResult) →
    List (Newsletter × FilterResult)
  | [] => []
  | (n, Except.ok r) :: rest =>
      if r.is_relevant then (n, r) :: collectOutcomes rest else collectOutcomes rest
  | (n, Except.error e) :: rest => (n, errorFilterResult e) :: collectOutcomes rest

/-- The comparison used by
`relevant_newsletters.sort(key=lambda x: x[1].relevance_score, reverse=True)`:
`a` may precede `b` iff the score of `a` is at least that of `b`. -/
def scoreGE (a b : Newsletter × FilterResult) : Prop :=
  b.2.relevance_score ≤ a.2.relevance_score

instance : DecidableRel scoreGE := fun a b =>
  inferInstanceAs (Decidable (b.2.relevance_score ≤ a.2.relevance_score))

instance : IsTotal (Newsletter × FilterResult) scoreGE :=
  ⟨fun a b => (le_total b.2.relevance_score a.2.relevance_score).imp id id⟩

instance : IsTrans (Newsletter × FilterResult) scoreGE :=
  ⟨fun _ _ _ hab hbc => le_trans hbc hab⟩

/-- `NewsletterFilter.filter_newsletters_parallel` (lines 36-98), as a
function of the completion-ordered task outcomes: collect the retained
pairs, then sort by relevance score descending (Python `list.sort` is a
stable sort; insertion sort is stable too). -/
def filter_newsletters_parallel
    (outcomes : List (Newsletter × Except Str FilterResult)) :
    List (Newsletter × FilterResult) :=
  List.insertionSort scoreGE (collectOutcomes outcomes)

/-! ## Multi-account aggregation (`podcast_generator.py`, lines 131-163)

`generate_podcast` loops over `self.email_services`; each
`fetch_newsletters` call either returns a list (extended onto
`all_newsletters`) or raises (an error string naming the account is
appended to `result["errors"]` and the loop continues). -/

/-- One email account paired with the outcome of its
`fetch_newsletters` call. -/
structure AccountFetch where
  address : Str
  outcome : Except Str (List Newsletter)

/-- The error string built at line 160:
`f"Failed to fetch from {email_service.email_address}: {str(e)}"`. -/
def fetchErrMsg (address e : Str) : Str :=
  "Failed to fetch from ".toList ++ address ++ ": ".toList ++ e

/-- The per-account fetch loop (lines 135-161): returns the merged
newsletter list (source order preserved) and the per-source error
strings (source order preserved). -/
def fetchAllAccounts : List AccountFetch → List Newsletter × List Str
  | [] => ([], [])
  | a :: rest =>
      let r := fetchAllAccounts rest
      match a.outcome with
      | Except.ok l => (l ++ r.1, r.2)
      | Except.error e => (r.1, fetchErrMsg a.address e :: r.2)

/-- The items an account contributes to the aggregate: its fetched list
on success and nothing on failure. -/
def okItems (s : AccountFetch) : List Newsletter :=
  (Except.toOption s.outcome).getD []

/-! ## Fetch cache (`email_service.py`, lines 67-108 and 243-284)

`_save_newsletters_to_cache` serialises each newsletter to a JSON record
holding the six dataclass fields (`date` via `isoformat`), and
`_load_cached_newsletters` rebuilds the dataclass from those records
(`date` via `fromisoformat`, which inverts `isoformat`; the round trip is
the identity on the modelled timestamp).  A cache entry on disk is its
age in seconds at read time together with its content; a corrupt or
unreadable entry is an `Except.error` (reading it raises, which
`fetch_newsletters` catches at line 102). -/

/-- One serialised newsletter record as written by
`_save_newsletters_to_cache` (lines 250-257). -/
structure CachedNewsletter where
  subject : Str
  sender : Str
  date : Int
  body : Str
  html_body : Option Str
  newsletter_source : Option Str
deriving DecidableEq, Repr

/-- Serialisation of one newsletter (lines 250-257). -/
def newsletterToCacheItem (n : Newsletter) : CachedNewsletter :=
  ⟨n.subject, n.sender, n.date, n.body, n.html_body, n.newsletter_source⟩

/-- Deserialisation of one record (lines 273-282). -/
def cacheItemToNewsletter (c : CachedNewsletter) : Newsletter :=
  ⟨c.subject, c.sender, c.date, c.body, c.html_body, c.newsletter_source⟩

/-- `EmailService._save_newsletters_to_cache`, content written for a
fingerprint (the surrounding file I/O is modelled away; the write is an
unconditional overwrite). -/
def _save_newsletters_to_cache (newsletters : List Newsletter) : List CachedNewsletter :=
  newsletters.map newsletterToCacheItem

/-- `EmailService._load_cached_newsletters` (lines 267-284). -/
def _load_cached_newsletters (cache_data : List CachedNewsletter) : List Newsletter :=
  cache_data.map cacheItemToNewsletter

/-- The cache entry found at the fingerprint path, as observed by
`fetch_newsletters`: `mtimeAge` is `(datetime.now() - mtime).total_seconds()`
in whole seconds, and `content` is `Except.error` when reading or parsing
the file raises. -/
structure CacheEntry where
  mtimeAge : Nat
  content : Except Unit (List CachedNewsletter)

/-- Staleness threshold at line 97: `cache_age.total_seconds() < 3600`. -/
def cacheStaleSeconds : Nat := 3600

/-- The cache probe of lines 91-103, wrapped there in its own
try/except: `some` exactly when caching is on, an entry exists, it is
fresher than the staleness threshold, and reading it succeeds (its
content deserialised); `none` (a miss) otherwise, a corrupt or
unreadable entry included. -/
def cacheProbe (use_cache : Bool) (entry : Option CacheEntry) :
    Option (List Newsletter) :=
  match use_cache, entry with
  | true, some e =>
      if e.mtimeAge < cacheStaleSeconds then
        match e.content with
        | Except.ok items => some (_load_cached_newsletters items)
        | Except.error _ => none
      else none
  | _, _ => none

/-- `EmailService.fetch_newsletters` (lines 67-163).  Parameters model
the environment at the call: `entry` is the cache file at the
fingerprint path if it exists, `hasConnection` is `self.connection is not None`,
`connectOk` is what `self.connect()` would return, and `body` is the
outcome of the IMAP select/search/fetch block (lines 110-159), an
`Except.error` when any step in that `try` block raises.  The returned
`Except` records whether the call raises to its caller. -/
def fetch_newsletters (use_cache : Bool) (entry : Option CacheEntry)
    (hasConnection connectOk : Bool) (body : Except Str (List Newsletter)) :
    Except Str (List Newsletter) :=
  -- lines 91-103: cache probe, wrapped in try/except (corrupt entry → miss)
  match cacheProbe use_cache entry with
  | some ns => Except.ok ns
  | none =>
      -- lines 106-108: connect, returning [] when the connection fails
      if !hasConnection && !connectOk then Except.ok []
      else
        -- lines 110-163: the fetch body with its catch-all returning []
        match body with
        | Except.ok ns => Except.ok ns
        | Except.error _ => Except.ok []

/-! ## Cache fingerprint (`email_service.py`, lines 231-241)

`_generate_cache_key` builds
`{"email": ..., "hours": ..., "folder": ..., "filters": sorted(filters) or []}`,
serialises it with `json.dumps(..., sort_keys=True)` and hashes with
`md5(...)[:12]`.  `json.dumps` with sorted keys is injective on this
record shape, so the fingerprint is the hash image of the record; the
hash (serialisation composed with md5 and truncation) is an opaque
parameter of the embedding. -/

/-- Python `sorted` on a list of strings (lexicographic order on
`List Char`). -/
def sortStrings (l : List Str) : List Str :=
  List.insertionSort (fun a b : Str => a ≤ b) l

/-- The key dictionary built at lines 234-239. -/
structure CacheKeyData where
  email : Str
  hours : Nat
  folder : Str
  filters : List Str
deriving DecidableEq, Repr

/-- `EmailService._generate_cache_key` (lines 231-241), with the
`json.dumps`/`md5`/truncation composite as the opaque `hash` parameter. -/
def _generate_cache_key (hash : CacheKeyData → Str) (email : Str)
    (hours_lookback : Nat) (folder : Str)
    (newsletter_filters : Option (List Str)) : Str :=
  hash
    { email := email
      hours := hours_lookback
      folder := folder
      filters :=
        match newsletter_filters with
        | some fs => if fs = [] then [] else sortStrings fs
        | none => [] }

/-! ## Oracle-response parsing (`newsletter_filter.py`, lines 159-202)

`_filter_single_newsletter` receives the free-form oracle text, carves
out the span from the first opening brace to its depth-count-matched
closing brace (lines 165-181), hands the span to `json.loads`, and on a
decode error falls back to a text heuristic (lines 192-202).
`json.loads` is an external decoder: the embedding takes it as a
parameter returning the decoded verdict fields, `none` on a decode
error. -/

/-- The depth-counting loop of lines 169-178, position-free: scans the
characters, adjusting the brace count, and returns the number of
characters up to and including the brace that brings the count to zero
(`none` if the count never reaches zero). -/
def matchedLen : Str → Int → Option Nat
  | [], _ => none
  | c :: rest, depth =>
      if c = '{' then
        match matchedLen rest (depth + 1) with
        | some k => some (k + 1)
        | none => none
      else if c = '}' then
        if depth - 1 = 0 then some 1
        else
          match matchedLen rest (depth - 1) with
          | some k => some (k + 1)
          | none => none
      else
        match matchedLen rest depth with
        | some k => some (k + 1)
        | none => none

/-- Lines 165-181: when the text contains both braces, take the span
from the first opening brace through the matching closing brace found
by depth counting; otherwise (or when the count never closes) keep the
whole text. -/
def extractJsonSpan (result_text : Str) : Str :=
  if '{' ∈ result_text ∧ '}' ∈ result_text then
    let start := result_text.indexOf '{'
    match matchedLen (result_text.drop start) 0 with
    | some len =>
        let end_idx := start + len
        if start < end_idx then (result_text.drop start).take (end_idx - start)
        else result_text
    | none => result_text
  else result_text

/-- The decoded fields of the oracle JSON verdict, mirroring the
`.get(...)` defaults of lines 186-191 (`none` = key absent). -/
structure JsonVerdict where
  is_relevant : Option Bool
  relevance_score : Option ℚ
  reason : Option Str
  topics : Option (List Str)

/-- Lines 186-191: build a `FilterResult` from the decoded dictionary
with the documented defaults. -/
def verdictOfJson (j : JsonVerdict) : FilterResult :=
  { is_relevant := j.is_relevant.getD false
    relevance_score := j.relevance_score.getD 0
    reason := j.reason.getD "No reason provided".toList
    topics := j.topics.getD [] }

/-- Python `str.lower()` on the modelled string. -/
def lowerStr (s : Str) : Str := s.map Char.toLower

/-- Python substring test (`pat in s`). -/
def containsSub (s pat : Str) : Bool :=
  s.tails.any fun t => pat.isPrefixOf t

/-- The text heuristic of line 196: the lower-cased text contains
`true` and the raw text contains `is_relevant`. -/
def heuristicRelevant (result_text : Str) : Bool :=
  containsSub (lowerStr result_text) "true".toList &&
    containsSub result_text "is_relevant".toList

/-- Reason string of line 200. -/
def parseFailReason : Str :=
  "JSON parse error - decision based on text analysis".toList

/-- The verdict built in the `json.JSONDecodeError` branch
(lines 192-202). -/
def parseFallbackResult (result_text : Str) : FilterResult :=
  let rel := heuristicRelevant result_text
  { is_relevant := rel
    relevance_score := if rel then 1/2 else 0
    reason := parseFailReason
    topics := [] }

/-- The response-parsing tail of `_filter_single_newsletter`
(lines 159-202): extract the JSON span, decode it, and fall back to the
text heuristic on a decode failure.  `jsonLoads` is the external
`json.loads`, returning `none` exactly when it would raise
`JSONDecodeError`. -/
def parseFilterResponse (jsonLoads : Str → Option JsonVerdict)
    (result_text : Str) : FilterResult :=
  match jsonLoads (extractJsonSpan result_text) with
  | some j => verdictOfJson j
  | none => parseFallbackResult result_text

/-! ## Orchestrator (`podcast_generator.py`, lines 93-316)

`generate_podcast` runs fetch → optional smart filter → script → audio →
storage upload → optional Drive upload over one mutable result
dictionary.  The environment carries the outcome of every external call:
per-account fetch outcomes, the completion-ordered scoring-task outcomes
for a given batch, the script text (`summarize_newsletters` catches its
own errors and returns a placeholder string, so it never raises), the
`text_to_speech` result (`None` on failure), the storage upload result,
and the Drive upload result.  Filesystem writes of the script/metadata
snapshots are modelled as succeeding. -/

/-- The environment of one `generate_podcast` run. -/
structure PodcastEnv where
  accounts : List AccountFetch
  filterEnabled : Bool
  filterOutcomes : List Newsletter → List (Newsletter × Except Str FilterResult)
  script : Str
  tts : Option Str
  uploadUrl : Option Str
  driveEnabled : Bool
  driveFileId : Option Str

/-- The `result` dictionary of `generate_podcast` (lines 114-122); keys
added later in the run are `Option` fields starting at `none`. -/
structure PResult where
  success : Bool := false
  newsletters_found : Nat := 0
  script_path : Option Str := none
  audio_path : Option Str := none
  uploaded_url : Option Str := none
  google_drive_id : Option Str := none
  google_drive_link : Option Str := none
  errors : List Str := []
deriving DecidableEq, Repr

/-- Merged fetch result over all accounts (lines 131-162). -/
def fetchedNewsletters (env : PodcastEnv) : List Newsletter :=
  (fetchAllAccounts env.accounts).1

/-- Per-account fetch error strings (line 160). -/
def fetchErrors (env : PodcastEnv) : List Str :=
  (fetchAllAccounts env.accounts).2

/-- The newsletter batch after the optional smart-filter stage
(lines 166-196): when filtering is on, the newsletters of the ranked
filter output; otherwise the fetched batch unchanged. -/
def pipelineItems (env : PodcastEnv) : List Newsletter :=
  if env.filterEnabled then
    (filter_newsletters_parallel
      (env.filterOutcomes (fetchedNewsletters env))).map Prod.fst
  else fetchedNewsletters env

/-- `ValueError` text raised by the thread-pool constructor when the
smart filter runs on an empty batch (`min(10, 0) = 0` workers), caught
by the catch-all at line 303. -/
def maxWorkersErr : Str := "max_workers must be greater than 0".toList

/-- Line 202. -/
def noNewslettersErr : Str :=
  "No newsletters found in the specified time period".toList

/-- Line 241. -/
def audioFailErr : Str := "Failed to generate audio".toList

/-- Line 270. -/
def uploadFailErr : Str := "Failed to upload audio to local storage".toList

/-- Line 300. -/
def driveFailErr : Str := "Failed to upload to Google Drive".toList

/-- Placeholder for the timestamped script path of line 223. -/
def scriptPathName : Str := "podcast_script.txt".toList

/-- Line 290. -/
def driveLink (fid : Str) : Str :=
  "https://drive.google.com/file/d/".toList ++ fid ++ "/view".toList

/-- `NewsletterPodcastGenerator.generate_podcast` (lines 93-316). -/
def generate_podcast (env : PodcastEnv) : PResult :=
  -- Step 1 (lines 131-163): fetch from every account, per-source errors
  let r0 : PResult := { errors := fetchErrors env }
  -- Step 1.5 (lines 166-196): smart filtering; an empty batch makes the
  -- thread-pool constructor raise, caught by the catch-all
  if env.filterEnabled ∧ fetchedNewsletters env = [] then
    { r0 with errors := r0.errors ++ [maxWorkersErr] }
  else
    let items := pipelineItems env
    let r1 := { r0 with newsletters_found := items.length }
    -- line 200: empty batch terminates early
    if items = [] then { r1 with errors := r1.errors ++ [noNewslettersErr] }
    else
      -- Step 2 (lines 208-228): script generation never raises
      let r2 := { r1 with script_path := some scriptPathName }
      -- Step 3 (lines 230-244): audio synthesis
      match env.tts with
      | none => { r2 with errors := r2.errors ++ [audioFailErr] }
      | some audio =>
          let r3 := { r2 with audio_path := some audio }
          -- Step 4 (lines 246-270): storage upload
          match env.uploadUrl with
          | some url =>
              let r4 := { r3 with uploaded_url := some url, success := true }
              -- Step 5 (lines 272-301): Drive upload, guarded by the
              -- drive service existing and the result being successful
              if env.driveEnabled then
                match env.driveFileId with
                | some fid =>
                    { r4 with
                      google_drive_id := some fid
                      google_drive_link := some (driveLink fid) }
                | none => { r4 with errors := r4.errors ++ [driveFailErr] }
              else r4
          | none => { r3 with errors := r3.errors ++ [uploadFailErr] }

/-! ## Segmented variant (`podcast_generator.py`, lines 318-394)

`__init__` (lines 21-91) assigns exactly these instance attributes;
`generate_segmented_podcast` reads `self.email_service`, which is not
among them, so the attribute lookup raises `AttributeError`, caught by
the catch-all at line 382. -/

/-- The instance attributes assigned by
`NewsletterPodcastGenerator.__init__` (every execution path of
lines 28-91). -/
def generatorAttrs : List Str :=
  ["config", "email_services", "summarization_service", "voice_service",
   "storage_service", "personalization", "newsletter_filter",
   "drive_service", "drive_folder_id"].map String.toList

/-- Python attribute lookup on the generator instance: raises
`AttributeError` for any name `__init__` never assigned. -/
def getattrGen (name : Str) : Except Str Unit :=
  if name ∈ generatorAttrs then Except.ok ()
  else Except.error
    ("NewsletterPodcastGenerator object has no attribute ".toList ++ name)

/-- Environment of a `generate_segmented_podcast` run: what the external
calls would return if reached. -/
structure SegEnv where
  fetched : List Newsletter
  segments : List Str
  audio_files : List Str
  combinedExists : Bool
  uploadUrl : Option Str

/-- The `result` dictionary of lines 339-344 (plus the keys added
later). -/
structure SegResult where
  success : Bool := false
  newsletters_found : Nat := 0
  segments : List Str := []
  audio_files : List Str := []
  uploaded_url : Option Str := none
  errors : List Str := []
deriving DecidableEq, Repr

/-- `NewsletterPodcastGenerator.generate_segmented_podcast`
(lines 318-394). -/
def generate_segmented_podcast (env : SegEnv) : SegResult :=
  let r0 : SegResult := {}
  -- line 348: reading `self.email_service` starts with the attribute
  -- lookup
  match getattrGen "email_service".toList with
  | Except.error e =>
      -- lines 382-384: the catch-all appends the exception text
      { r0 with errors := r0.errors ++ [e] }
  | Except.ok _ =>
      -- the rest of the body (lines 348-380), modelled from the source;
      -- unreachable because the lookup always raises
      let ns := env.fetched
      let r1 := { r0 with newsletters_found := ns.length }
      if ns = [] then
        { r1 with errors := r1.errors ++ ["No newsletters found".toList] }
      else
        let r2 := { r1 with segments := env.segments, audio_files := env.audio_files }
        if env.audio_files ≠ [] ∧ env.combinedExists then
          { r2 with uploaded_url := env.uploadUrl, success := true }
        else r2

/-! ## Theorems -/

/-- A raised scoring task leaves its newsletter in the collected pairs
with the fallback verdict. -/
theorem mem_collectOutcomes_of_error
    {outcomes : List (Newsletter × Except Str FilterResult)}
    {n : Newsletter} {e : Str}
    (hmem : (n, Except.error e) ∈ outcomes) :
    (n, errorFilterResult e) ∈ collectOutcomes outcomes := by
  induction outcomes with
  | nil => cases hmem
  | cons p rest ih =>
      rcases List.mem_cons.1 hmem with heq | hm
      · cases heq.symm
        simp [collectOutcomes]
      · obtain ⟨n0, o0⟩ := p
        cases o0 with
        | ok r =>
            cases hr : r.is_relevant <;> simp [collectOutcomes, hr, ih hm]
        | error e0 => simp [collectOutcomes, ih hm]

/-- Every collected pair has a relevant verdict and stems from an input
outcome: a kept successful verdict or a raised task with the fallback
verdict. -/
theorem collectOutcomes_spec
    {l : List (Newsletter × Except Str FilterResult)}
    {p : Newsletter × FilterResult} (hp : p ∈ collectOutcomes l) :
    p.2.is_relevant = true ∧
      ((p.1, Except.ok p.2) ∈ l ∨
        ∃ e, (p.1, Except.error e) ∈ l ∧ p.2 = errorFilterResult e) := by
  induction l with
  | nil => cases hp
  | cons q rest ih =>
      obtain ⟨n0, o0⟩ := q
      cases o0 with
      | ok r =>
          cases hr : r.is_relevant with
          | false =>
              rw [show collectOutcomes ((n0, Except.ok r) :: rest)
                  = collectOutcomes rest by simp [collectOutcomes, hr]] at hp
              obtain ⟨h1, h2⟩ := ih hp
              exact ⟨h1, h2.imp (List.mem_cons_of_mem _)
                (fun ⟨e, he, hpe⟩ => ⟨e, List.mem_cons_of_mem _ he, hpe⟩)⟩
          | true =>
              rw [show collectOutcomes ((n0, Except.ok r) :: rest)
                  = (n0, r) :: collectOutcomes rest by simp [collectOutcomes, hr]] at hp
              rcases List.mem_cons.1 hp with heq | hm
              · cases heq
                exact ⟨hr, Or.inl (List.mem_cons_self _ _)⟩
              · obtain ⟨h1, h2⟩ := ih hm
                exact ⟨h1, h2.imp (List.mem_cons_of_mem _)
                  (fun ⟨e, he, hpe⟩ => ⟨e, List.mem_cons_of_mem _ he, hpe⟩)⟩
      | error e0 =>
          rw [show collectOutcomes ((n0, Except.error e0) :: rest)
              = (n0, errorFilterResult e0) :: collectOutcomes rest by
                simp [collectOutcomes]] at hp
          rcases List.mem_cons.1 hp with heq | hm
          · cases heq
            exact ⟨rfl, Or.inr ⟨e0, List.mem_cons_self _ _, rfl⟩⟩
          · obtain ⟨h1, h2⟩ := ih hm
            exact ⟨h1, h2.imp (List.mem_cons_of_mem _)
              (fun ⟨e, he, hpe⟩ => ⟨e, List.mem_cons_of_mem _ he, hpe⟩)⟩

/-- C2: an item whose scoring task raises during
`filter_newsletters_parallel` is not dropped: it appears in the returned
relevant set with a verdict having `is_relevant = true`,
`relevance_score = 0.5`, and a reason naming the failure. -/
theorem c2_error_item_retained
    (outcomes : List (Newsletter × Except Str FilterResult))
    (n : Newsletter) (e : Str)
    (hmem : (n, Except.error e) ∈ outcomes) :
    ∃ r : FilterResult,
      (n, r) ∈ filter_newsletters_parallel outcomes ∧
      r.is_relevant = true ∧
      r.relevance_score = 1/2 ∧
      r.reason = "Error during filtering: ".toList ++ e :=
  ⟨errorFilterResult e,
    (List.perm_insertionSort scoreGE (collectOutcomes outcomes)).mem_iff.2
      (mem_collectOutcomes_of_error hmem),
    rfl, rfl, rfl⟩

/-- A concrete newsletter used by the closed witnesses. -/
def wNewsletter : Newsletter :=
  { subject := "AI Weekly".toList
    sender := "news@aiweekly.co".toList
    date := 0
    body := "model release notes".toList }

/-- Witness for C2 at a one-element batch whose single task raised. -/
theorem c2_error_item_retained_witness :
    ((wNewsletter, Except.error "timeout".toList) ∈
        [(wNewsletter, (Except.error "timeout".toList : Except Str FilterResult))]) ∧
    ∃ r : FilterResult,
      (wNewsletter, r) ∈ filter_newsletters_parallel
          [(wNewsletter, Except.error "timeout".toList)] ∧
      r.is_relevant = true ∧
      r.relevance_score = 1/2 ∧
      r.reason = "Error during filtering: ".toList ++ "timeout".toList :=
  ⟨List.mem_singleton.2 rfl,
    c2_error_item_retained _ wNewsletter "timeout".toList (List.mem_singleton.2 rfl)⟩

/-- C3: for a non-empty input batch, `filter_newsletters_parallel`
returns only pairs drawn from the input whose verdict is relevant (a
kept oracle verdict or the fallback verdict of a raised task), and the
relevance scores along the returned sequence are non-increasing. -/
theorem c3_filter_ranked_relevant_subset
    (outcomes : List (Newsletter × Except Str FilterResult))
    (hne : outcomes ≠ []) :
    (∀ p ∈ filter_newsletters_parallel outcomes,
        p.2.is_relevant = true ∧
        ((p.1, Except.ok p.2) ∈ outcomes ∨
          ∃ e, (p.1, Except.error e) ∈ outcomes ∧ p.2 = errorFilterResult e)) ∧
    List.Sorted scoreGE (filter_newsletters_parallel outcomes) := by
  refine ⟨fun p hp => collectOutcomes_spec ?_, List.sorted_insertionSort scoreGE _⟩
  exact (List.perm_insertionSort scoreGE (collectOutcomes outcomes)).mem_iff.1 hp

/-- A concrete relevant verdict used by the C3 witness. -/
def wVerdict : FilterResult :=
  { is_relevant := true
    relevance_score := 9/10
    reason := "news".toList
    topics := [] }

/-- Witness for C3 at a one-element batch with a successful task. -/
theorem c3_filter_ranked_relevant_subset_witness :
    ([(wNewsletter, (Except.ok wVerdict : Except Str FilterResult))] ≠ []) ∧
    ((∀ p ∈ filter_newsletters_parallel [(wNewsletter, Except.ok wVerdict)],
        p.2.is_relevant = true ∧
        ((p.1, Except.ok p.2) ∈ [(wNewsletter, (Except.ok wVerdict : Except Str FilterResult))] ∨
          ∃ e, (p.1, Except.error e) ∈
              [(wNewsletter, (Except.ok wVerdict : Except Str FilterResult))] ∧
            p.2 = errorFilterResult e)) ∧
      List.Sorted scoreGE (filter_newsletters_parallel [(wNewsletter, Except.ok wVerdict)])) :=
  ⟨List.cons_ne_nil _ _,
    c3_filter_ranked_relevant_subset [(wNewsletter, Except.ok wVerdict)]
      (List.cons_ne_nil _ _)⟩

/-- Unfolding of the fetch loop over one successful account. -/
theorem fetchAllAccounts_ok_cons {s : AccountFetch} {l : List Newsletter}
    (hs : s.outcome = Except.ok l) (rest : List AccountFetch) :
    fetchAllAccounts (s :: rest) =
      (l ++ (fetchAllAccounts rest).1, (fetchAllAccounts rest).2) := by
  simp [fetchAllAccounts, hs]

/-- A prefix of all-successful accounts contributes its items in order
and no error strings. -/
theorem fetchAllAccounts_append_ok (l rest : List AccountFetch)
    (hl : ∀ s ∈ l, ∃ m, s.outcome = Except.ok m) :
    fetchAllAccounts (l ++ rest) =
      ((l.map okItems).join ++ (fetchAllAccounts rest).1,
        (fetchAllAccounts rest).2) := by
  induction l with
  | nil => simp
  | cons s t ih =>
      obtain ⟨m, hm⟩ := hl s (List.mem_cons_self _ _)
      have ht : ∀ x ∈ t, ∃ m, x.outcome = Except.ok m := fun x hx =>
        hl x (List.mem_cons_of_mem _ hx)
      have hok : okItems s = m := by simp [okItems, hm, Except.toOption]
      rw [List.cons_append, fetchAllAccounts_ok_cons hm, ih ht]
      simp [hok, List.append_assoc]

/-- C1: in a multi-account fetch in which exactly one account raises
and the others succeed, the aggregate item count equals the sum of the
item counts of the successful accounts, and the collected error list is
exactly one entry naming the failed account. -/
theorem c1_single_source_failure
    (pre post : List AccountFetch) (addr e : Str)
    (hpre : ∀ s ∈ pre, ∃ m, s.outcome = Except.ok m)
    (hpost : ∀ s ∈ post, ∃ m, s.outcome = Except.ok m) :
    (fetchAllAccounts (pre ++ AccountFetch.mk addr (Except.error e) :: post)).1.length
        = ((pre ++ post).map fun s => (okItems s).length).sum ∧
    (fetchAllAccounts (pre ++ AccountFetch.mk addr (Except.error e) :: post)).2
        = [fetchErrMsg addr e] := by
  have hmid : fetchAllAccounts (AccountFetch.mk addr (Except.error e) :: post) =
      ((fetchAllAccounts post).1, fetchErrMsg addr e :: (fetchAllAccounts post).2) := by
    simp [fetchAllAccounts]
  have hpost' : fetchAllAccounts post = ((post.map okItems).join, []) := by
    have := fetchAllAccounts_append_ok post [] hpost
    simpa [fetchAllAccounts] using this
  rw [fetchAllAccounts_append_ok pre _ hpre, hmid, hpost']
  constructor
  · simp [List.length_join, List.map_map, Function.comp_def]
  · rfl

/-- Accounts of the C1 witness: 5 items, a raised fetch, 4 items (the
scenario of the specification). -/
def wAccountsPre : List AccountFetch :=
  [⟨"first@example.com".toList, Except.ok (List.replicate 5 wNewsletter)⟩]

/-- Successful trailing account of the C1 witness. -/
def wAccountsPost : List AccountFetch :=
  [⟨"third@example.com".toList, Except.ok (List.replicate 4 wNewsletter)⟩]

/-- Witness for C1: 5 + (raise) + 4 accounts give 9 aggregate items and
exactly one error entry naming the failed account. -/
theorem c1_single_source_failure_witness :
    (fetchAllAccounts (wAccountsPre ++
        AccountFetch.mk "second@example.com".toList (Except.error "imap down".toList)
          :: wAccountsPost)).1.length = 9 ∧
    (fetchAllAccounts (wAccountsPre ++
        AccountFetch.mk "second@example.com".toList (Except.error "imap down".toList)
          :: wAccountsPost)).2
      = [fetchErrMsg "second@example.com".toList "imap down".toList] := by
  have h := c1_single_source_failure wAccountsPre wAccountsPost
    "second@example.com".toList "imap down".toList
    (by intro s hs
        rw [wAccountsPre, List.mem_singleton] at hs
        exact ⟨_, by rw [hs]⟩)
    (by intro s hs
        rw [wAccountsPost, List.mem_singleton] at hs
        exact ⟨_, by rw [hs]⟩)
  exact ⟨h.1.trans (by decide), h.2⟩

/-- Serialising then deserialising a newsletter list is the identity. -/
theorem load_save_roundtrip (ns : List Newsletter) :
    _load_cached_newsletters (_save_newsletters_to_cache ns) = ns := by
  induction ns with
  | nil => rfl
  | cons n t ih =>
      simp only [_save_newsletters_to_cache, _load_cached_newsletters,
        List.map_cons] at ih ⊢
      exact congrArg _ ih

/-- C4: a cache write followed immediately by a cached read within the
1-hour staleness window returns exactly the written newsletter list; a
stored entry older than the staleness threshold, or corrupt/unreadable,
behaves exactly like a cache miss (the live fetch of a cacheless call),
never a raised error. -/
theorem c4_cache_write_read_staleness (ns : List Newsletter) (age : Nat)
    (e : CacheEntry) (hasConnection connectOk : Bool)
    (body : Except Str (List Newsletter)) :
    (age < cacheStaleSeconds →
      fetch_newsletters true
          (some ⟨age, Except.ok (_save_newsletters_to_cache ns)⟩)
          hasConnection connectOk body = Except.ok ns) ∧
    (cacheStaleSeconds ≤ e.mtimeAge →
      fetch_newsletters true (some e) hasConnection connectOk body =
        fetch_newsletters false none hasConnection connectOk body) ∧
    (fetch_newsletters true (some ⟨age, Except.error ()⟩)
        hasConnection connectOk body =
      fetch_newsletters false none hasConnection connectOk body) := by
  refine ⟨fun h => ?_, fun h => ?_, ?_⟩
  · simp [fetch_newsletters, cacheProbe, h, load_save_roundtrip]
  · have h' : ¬ e.mtimeAge < cacheStaleSeconds := not_lt.2 h
    simp [fetch_newsletters, cacheProbe, h']
  · by_cases h : age < cacheStaleSeconds <;>
      simp [fetch_newsletters, cacheProbe, h]

/-- Witness for C4: a fresh write read back at age 10 s, a stale entry
at age 4000 s, and a corrupt entry, each behaving as claimed. -/
theorem c4_cache_write_read_staleness_witness :
    (10 < cacheStaleSeconds ∧
      fetch_newsletters true
          (some ⟨10, Except.ok (_save_newsletters_to_cache [wNewsletter])⟩)
          true true (Except.ok []) = Except.ok [wNewsletter]) ∧
    (cacheStaleSeconds ≤ 4000 ∧
      fetch_newsletters true
          (some ⟨4000, Except.ok (_save_newsletters_to_cache [wNewsletter])⟩)
          true true (Except.ok []) =
        fetch_newsletters false none true true (Except.ok [])) ∧
    (fetch_newsletters true (some ⟨10, Except.error ()⟩)
        true true (Except.ok []) =
      fetch_newsletters false none true true (Except.ok [])) :=
  ⟨⟨by decide,
      (c4_cache_write_read_staleness [wNewsletter] 10
        ⟨0, Except.error ()⟩ true true (Except.ok [])).1 (by decide)⟩,
    ⟨by decide,
      (c4_cache_write_read_staleness [wNewsletter] 10
        ⟨4000, Except.ok (_save_newsletters_to_cache [wNewsletter])⟩
        true true (Except.ok [])).2.1 (by decide)⟩,
    (c4_cache_write_read_staleness [wNewsletter] 10
      ⟨0, Except.error ()⟩ true true (Except.ok [])).2.2⟩

/-- C9: `fetch_newsletters` never raises to its caller: whatever the
cache state, connection outcome and IMAP body outcome, it returns a
newsletter list; and on a cache miss it returns the EMPTY list both when
the connection cannot be established (lines 106-108) and when the
select/search/fetch body raises (lines 161-163), rather than propagating
the error. -/
theorem c9_fetch_never_raises (use_cache : Bool) (entry : Option CacheEntry)
    (hasConnection connectOk : Bool) (body : Except Str (List Newsletter))
    (er : Str) :
    (∃ ns, fetch_newsletters use_cache entry hasConnection connectOk body =
      Except.ok ns) ∧
    (cacheProbe use_cache entry = none → hasConnection = false →
      connectOk = false →
      fetch_newsletters use_cache entry hasConnection connectOk body =
        Except.ok []) ∧
    (cacheProbe use_cache entry = none →
      (hasConnection = true ∨ connectOk = true) →
      body = Except.error er →
      fetch_newsletters use_cache entry hasConnection connectOk body =
        Except.ok []) := by
  refine ⟨?_, fun hc h1 h2 => ?_, fun hc hco hbody => ?_⟩
  · cases hcp : cacheProbe use_cache entry with
    | some ns => exact ⟨ns, by simp [fetch_newsletters, hcp]⟩
    | none =>
        cases body <;> cases hasConnection <;> cases connectOk <;>
          simp [fetch_newsletters, hcp]
  · simp [fetch_newsletters, hc, h1, h2]
  · rcases hco with h | h <;> simp [fetch_newsletters, hc, h, hbody]

/-- Witness for C9: a concrete failed connect and a concrete raised
fetch body (behind a corrupt cache entry) each return the empty list. -/
theorem c9_fetch_never_raises_witness :
    (∃ ns, fetch_newsletters false none false false
        (Except.error "imap down".toList) = Except.ok ns) ∧
    (cacheProbe false none = none ∧
      fetch_newsletters false none false false
          (Except.error "imap down".toList) = Except.ok []) ∧
    (cacheProbe true (some ⟨10, Except.error ()⟩) = none ∧
      fetch_newsletters true (some ⟨10, Except.error ()⟩) true true
          (Except.error "imap down".toList) = Except.ok []) :=
  ⟨(c9_fetch_never_raises false none false false
      (Except.error "imap down".toList) "imap down".toList).1,
    ⟨rfl,
      (c9_fetch_never_raises false none false false
          (Except.error "imap down".toList) "imap down".toList).2.1
        rfl rfl rfl⟩,
    ⟨by decide,
      (c9_fetch_never_raises true (some ⟨10, Except.error ()⟩) true true
          (Except.error "imap down".toList) "imap down".toList).2.2
        (by decide) (Or.inl rfl) rfl⟩⟩

/-- Python `sorted` yields the same list on any two permutations of the
same multiset of strings. -/
theorem sortStrings_eq_of_perm {l1 l2 : List Str} (h : l1.Perm l2) :
    sortStrings l1 = sortStrings l2 :=
  List.eq_of_perm_of_sorted
    ((List.perm_insertionSort _ l1).trans
      (h.trans (List.perm_insertionSort _ l2).symm))
    (List.sorted_insertionSort _ l1) (List.sorted_insertionSort _ l2)

/-- C8: for a fixed account identity the cache fingerprint is
deterministic (equal lookback/folder/filter inputs give equal
fingerprints, for any serialisation-and-hash function), and two
keyword-filter lists that are permutations of each other give equal
fingerprints, because the filters are sorted before hashing. -/
theorem c8_cache_key_deterministic_perm_invariant
    (hash : CacheKeyData → Str) (email : Str) (hours : Nat) (folder : Str)
    (fsOpt : Option (List Str)) (fs1 fs2 : List Str)
    (hperm : fs1.Perm fs2) :
    (_generate_cache_key hash email hours folder fsOpt =
        _generate_cache_key hash email hours folder fsOpt) ∧
    (_generate_cache_key hash email hours folder (some fs1) =
        _generate_cache_key hash email hours folder (some fs2)) := by
  refine ⟨rfl, ?_⟩
  by_cases h1 : fs1 = []
  · subst h1
    have h2 : fs2 = [] := hperm.symm.eq_nil
    subst h2
    rfl
  · have h2 : fs2 ≠ [] := fun h => h1 (by rw [h] at hperm; exact hperm.eq_nil)
    simp [_generate_cache_key, h1, h2, sortStrings_eq_of_perm hperm]

/-- Witness for C8 at a concrete pair of permuted filter lists and a
concrete hash. -/
theorem c8_cache_key_deterministic_perm_invariant_witness :
    (["ml".toList, "ai".toList].Perm ["ai".toList, "ml".toList]) ∧
    (_generate_cache_key (fun d => d.filters.join) "me@example.com".toList 24
        "INBOX".toList (some ["ml".toList, "ai".toList]) =
      _generate_cache_key (fun d => d.filters.join) "me@example.com".toList 24
        "INBOX".toList (some ["ai".toList, "ml".toList])) :=
  ⟨by decide,
    (c8_cache_key_deterministic_perm_invariant (fun d => d.filters.join)
      "me@example.com".toList 24 "INBOX".toList none
      ["ml".toList, "ai".toList] ["ai".toList, "ml".toList] (by decide)).2⟩

/-- C5: when audio synthesis fails (`text_to_speech` returns no
artifact) in a run that reaches the synthesis stage, `generate_podcast`
returns `success = false`, `audio_path = none`, appends the
audio-generation failure string to `errors`, and the publishing/upload
stage never executes: no upload reference is set and the result does not
depend on the storage or Drive outcomes. -/
theorem c5_audio_failure_fatal (env : PodcastEnv) (u d : Option Str)
    (hreach : ¬(env.filterEnabled ∧ fetchedNewsletters env = []))
    (hitems : pipelineItems env ≠ [])
    (htts : env.tts = none) :
    (generate_podcast env).success = false ∧
    (generate_podcast env).audio_path = none ∧
    (generate_podcast env).uploaded_url = none ∧
    (generate_podcast env).google_drive_id = none ∧
    audioFailErr ∈ (generate_podcast env).errors ∧
    generate_podcast { env with uploadUrl := u, driveFileId := d } =
      generate_podcast env := by
  have hval : generate_podcast env =
      { success := false
        newsletters_found := (pipelineItems env).length
        script_path := some scriptPathName
        errors := fetchErrors env ++ [audioFailErr] } := by
    rw [generate_podcast, if_neg hreach]
    simp only [htts]
    rw [if_neg hitems]
  have hreach' : ¬(({ env with uploadUrl := u, driveFileId := d } : PodcastEnv).filterEnabled = true ∧
      fetchedNewsletters { env with uploadUrl := u, driveFileId := d } = []) := hreach
  have hitems' : pipelineItems { env with uploadUrl := u, driveFileId := d } ≠ [] := hitems
  have htts' : ({ env with uploadUrl := u, driveFileId := d } : PodcastEnv).tts = none := htts
  have hval' : generate_podcast { env with uploadUrl := u, driveFileId := d } =
      { success := false
        newsletters_found := (pipelineItems env).length
        script_path := some scriptPathName
        errors := fetchErrors env ++ [audioFailErr] } := by
    rw [generate_podcast, if_neg hreach']
    rw [if_neg hitems']
    simp only [htts]
    rfl
  refine ⟨by rw [hval], by rw [hval], by rw [hval], by rw [hval], ?_, by rw [hval, hval']⟩
  rw [hval]
  exact List.mem_append_right _ (List.mem_singleton.2 rfl)

/-- Environment of the C5 witness: one successful account, filtering
off, a failed synthesis call. -/
def wEnvAudioFail : PodcastEnv :=
  { accounts := [⟨"me@example.com".toList, Except.ok [wNewsletter]⟩]
    filterEnabled := false
    filterOutcomes := fun _ => []
    script := "hello".toList
    tts := none
    uploadUrl := some "file:///tmp/a.mp3".toList
    driveEnabled := true
    driveFileId := some "drv1".toList }

/-- Witness for C5 at a concrete environment. -/
theorem c5_audio_failure_fatal_witness :
    (¬(wEnvAudioFail.filterEnabled ∧ fetchedNewsletters wEnvAudioFail = [])) ∧
    (pipelineItems wEnvAudioFail ≠ []) ∧
    (generate_podcast wEnvAudioFail).success = false ∧
    (generate_podcast wEnvAudioFail).audio_path = none ∧
    (generate_podcast wEnvAudioFail).uploaded_url = none ∧
    (generate_podcast wEnvAudioFail).google_drive_id = none ∧
    audioFailErr ∈ (generate_podcast wEnvAudioFail).errors ∧
    generate_podcast { wEnvAudioFail with uploadUrl := none, driveFileId := none } =
      generate_podcast wEnvAudioFail := by
  have h := c5_audio_failure_fatal wEnvAudioFail none none
    (by decide) (by decide) rfl
  exact ⟨by decide, by decide, h.1, h.2.1, h.2.2.1, h.2.2.2.1, h.2.2.2.2.1, h.2.2.2.2.2⟩

/-- C6: when the primary storage upload succeeds but the Google Drive
distribution fails, `generate_podcast` returns `success = true`, a
warning entry is appended to `errors`, and neither secondary reference
field (`google_drive_id`, `google_drive_link`) is set. -/
theorem c6_drive_failure_nonfatal (env : PodcastEnv) (audio url : Str)
    (hreach : ¬(env.filterEnabled ∧ fetchedNewsletters env = []))
    (hitems : pipelineItems env ≠ [])
    (htts : env.tts = some audio)
    (hup : env.uploadUrl = some url)
    (hde : env.driveEnabled = true)
    (hdf : env.driveFileId = none) :
    (generate_podcast env).success = true ∧
    driveFailErr ∈ (generate_podcast env).errors ∧
    (generate_podcast env).google_drive_id = none ∧
    (generate_podcast env).google_drive_link = none := by
  have hval : generate_podcast env =
      { success := true
        newsletters_found := (pipelineItems env).length
        script_path := some scriptPathName
        audio_path := some audio
        uploaded_url := some url
        errors := fetchErrors env ++ [driveFailErr] } := by
    rw [generate_podcast, if_neg hreach]
    simp only [htts, hup, hde, hdf]
    rw [if_neg hitems]
    simp
  refine ⟨by rw [hval], ?_, by rw [hval], by rw [hval]⟩
  rw [hval]
  exact List.mem_append_right _ (List.mem_singleton.2 rfl)

/-- Environment of the C6 witness: successful fetch, synthesis and
primary upload, Drive enabled but failing. -/
def wEnvDriveFail : PodcastEnv :=
  { accounts := [⟨"me@example.com".toList, Except.ok [wNewsletter]⟩]
    filterEnabled := false
    filterOutcomes := fun _ => []
    script := "hello".toList
    tts := some "out/podcast.mp3".toList
    uploadUrl := some "file:///tmp/a.mp3".toList
    driveEnabled := true
    driveFileId := none }

/-- Witness for C6 at a concrete environment. -/
theorem c6_drive_failure_nonfatal_witness :
    (¬(wEnvDriveFail.filterEnabled ∧ fetchedNewsletters wEnvDriveFail = [])) ∧
    (pipelineItems wEnvDriveFail ≠ []) ∧
    (generate_podcast wEnvDriveFail).success = true ∧
    driveFailErr ∈ (generate_podcast wEnvDriveFail).errors ∧
    (generate_podcast wEnvDriveFail).google_drive_id = none ∧
    (generate_podcast wEnvDriveFail).google_drive_link = none := by
  have h := c6_drive_failure_nonfatal wEnvDriveFail
    "out/podcast.mp3".toList "file:///tmp/a.mp3".toList
    (by decide) (by decide) rfl rfl rfl rfl
  exact ⟨by decide, by decide, h.1, h.2.1, h.2.2.1, h.2.2.2⟩

/-- C10: the segmented variant always fails: `__init__` never assigns
`email_service` (only `email_services`), so the attribute lookup of the
fetch step raises for every configuration and input, the catch-all records
it, and the result has `success = false` with a non-empty error list. -/
theorem c10_segmented_always_fails (env : SegEnv) :
    (generate_segmented_podcast env).success = false ∧
    (generate_segmented_podcast env).errors ≠ [] :=
  ⟨rfl, List.cons_ne_nil _ _⟩

/-- The depth count closes within a list exactly where it closes within
any extension of that list. -/
theorem matchedLen_append {u : Str} {d : Int} {k : Nat}
    (h : matchedLen u d = some k) (v : Str) :
    matchedLen (u ++ v) d = some k := by
  induction u generalizing d k with
  | nil => simp [matchedLen] at h
  | cons c rest ih =>
      rw [List.cons_append]
      simp only [matchedLen] at h ⊢
      split_ifs at h ⊢ with hc hc' hd
      · cases hml : matchedLen rest (d + 1) with
        | none => rw [hml] at h; cases h
        | some kr =>
            rw [hml] at h
            rw [ih hml]
            exact h
      · exact h
      · cases hml : matchedLen rest (d - 1) with
        | none => rw [hml] at h; cases h
        | some kr =>
            rw [hml] at h
            rw [ih hml]
            exact h
      · cases hml : matchedLen rest d with
        | none => rw [hml] at h; cases h
        | some kr =>
            rw [hml] at h
            rw [ih hml]
            exact h

/-- A list in which the depth count closes contains a closing brace. -/
theorem matchedLen_mem_close {u : Str} {d : Int} {k : Nat}
    (h : matchedLen u d = some k) : '}' ∈ u := by
  induction u generalizing d k with
  | nil => simp [matchedLen] at h
  | cons c rest ih =>
      by_cases hc' : c = '}'
      · rw [hc']
        exact List.mem_cons_self _ _
      · simp only [matchedLen] at h
        split_ifs at h with hc
        · cases hml : matchedLen rest (d + 1) with
          | none => rw [hml] at h; cases h
          | some kr => exact List.mem_cons_of_mem _ (ih hml)
        · cases hml : matchedLen rest d with
          | none => rw [hml] at h; cases h
          | some kr => exact List.mem_cons_of_mem _ (ih hml)

/-- The span carved out of an oracle response that embeds one
depth-balanced block: exactly that block. -/
theorem extractJsonSpan_embedded_block (pre bt post : Str)
    (hpre : '{' ∉ pre)
    (hbal : matchedLen ('{' :: bt) 0 = some ('{' :: bt).length) :
    extractJsonSpan (pre ++ ('{' :: bt) ++ post) = '{' :: bt := by
  have hmem1 : '{' ∈ pre ++ ('{' :: bt) ++ post := by simp
  have hclose : '}' ∈ ('{' :: bt) := matchedLen_mem_close hbal
  have hmem2 : '}' ∈ pre ++ ('{' :: bt) ++ post := by
    simp only [List.append_assoc, List.mem_append]
    exact Or.inr (Or.inl hclose)
  have hstart : (pre ++ ('{' :: bt) ++ post).indexOf '{' = pre.length := by
    rw [List.append_assoc, List.indexOf_append_of_not_mem hpre]
    simp [List.indexOf_cons_self]
  have hdrop : (pre ++ ('{' :: bt) ++ post).drop pre.length = ('{' :: bt) ++ post := by
    rw [List.append_assoc]
    exact List.drop_left _ _
  have hml : matchedLen (('{' :: bt) ++ post) 0 = some ('{' :: bt).length :=
    matchedLen_append hbal post
  have hlt : pre.length < pre.length + ('{' :: bt).length :=
    Nat.lt_add_of_pos_right (Nat.succ_pos _)
  unfold extractJsonSpan
  rw [if_pos ⟨hmem1, hmem2⟩]
  simp only [hstart, hdrop, hml]
  rw [if_pos hlt, Nat.add_sub_cancel_left]
  exact List.take_left _ _

/-- C7 counterexample: the claim asserts that whenever the extracted
span fails to decode, the fallback verdict has score `0.5`; but for the
response `Sorry, I cannot {comply}.` (span `{comply}` fails to decode,
and the text heuristic finds no relevance marker) the code returns score
`0.0`, not `0.5`. -/
theorem c7_parse_fallback_score_counterexample :
    ((fun _ => (none : Option JsonVerdict))
        (extractJsonSpan "Sorry, I cannot {comply}.".toList) = none) ∧
    (parseFilterResponse (fun _ => none)
        "Sorry, I cannot {comply}.".toList).relevance_score ≠ 1/2 := by
  refine ⟨rfl, ?_⟩
  have hh : heuristicRelevant "Sorry, I cannot {comply}.".toList = false := by decide
  have hv : (parseFilterResponse (fun _ => none)
      "Sorry, I cannot {comply}.".toList).relevance_score = 0 := by
    show (if heuristicRelevant "Sorry, I cannot {comply}.".toList then (1/2 : ℚ) else 0) = 0
    rw [hh]
    rfl
  rw [hv]
  norm_num

/-- C7 (amended): for an oracle response embedding one depth-balanced
block after brace-free prose, the extracted span is exactly that block;
and when the span still fails to decode, the result falls back to the
text heuristic with a reason labelling the parse failure, scoring `0.5`
when the heuristic judges the text relevant and `0.0` otherwise, with
`is_relevant` mirroring the heuristic. -/
theorem c7_span_extraction_and_parse_fallback
    (jsonLoads : Str → Option JsonVerdict) (pre bt post : Str)
    (hpre : '{' ∉ pre)
    (hbal : matchedLen ('{' :: bt) 0 = some ('{' :: bt).length) :
    extractJsonSpan (pre ++ ('{' :: bt) ++ post) = '{' :: bt ∧
    (jsonLoads ('{' :: bt) = none →
      parseFilterResponse jsonLoads (pre ++ ('{' :: bt) ++ post) =
        { is_relevant := heuristicRelevant (pre ++ ('{' :: bt) ++ post)
          relevance_score :=
            if heuristicRelevant (pre ++ ('{' :: bt) ++ post) then 1/2 else 0
          reason := parseFailReason
          topics := [] }) := by
  have hspan := extractJsonSpan_embedded_block pre bt post hpre hbal
  refine ⟨hspan, fun hj => ?_⟩
  rw [parseFilterResponse, hspan, hj]
  rfl

/-- Witness for C7 (amended) at a concrete prose-wrapped block whose
decode fails. -/
theorem c7_span_extraction_and_parse_fallback_witness :
    ('{' ∉ "Verdict: ".toList) ∧
    (matchedLen ('{' :: "\"is_relevant\": true".toList ++ ['}']) 0 =
      some ('{' :: "\"is_relevant\": true".toList ++ ['}']).length) ∧
    extractJsonSpan ("Verdict: ".toList ++
        ('{' :: "\"is_relevant\": true".toList ++ ['}']) ++ " done".toList) =
      '{' :: "\"is_relevant\": true".toList ++ ['}'] ∧
    ((fun _ => (none : Option JsonVerdict))
          ('{' :: "\"is_relevant\": true".toList ++ ['}']) = none →
      parseFilterResponse (fun _ => none) ("Verdict: ".toList ++
          ('{' :: "\"is_relevant\": true".toList ++ ['}']) ++ " done".toList) =
        { is_relevant := heuristicRelevant ("Verdict: ".toList ++
            ('{' :: "\"is_relevant\": true".toList ++ ['}']) ++ " done".toList)
          relevance_score :=
            if heuristicRelevant ("Verdict: ".toList ++
                ('{' :: "\"is_relevant\": true".toList ++ ['}']) ++ " done".toList)
            then 1/2 else 0
          reason := parseFailReason
          topics := [] }) := by
  have h := c7_span_extraction_and_parse_fallback (fun _ => none)
    "Verdict: ".toList ("\"is_relevant\": true".toList ++ ['}']) " done".toList
    (by decide) (by decide)
  exact ⟨by decide, by decide, h.1, h.2⟩

end Newspod
